import Mathlib

/-!
Shallow embedding of the trivia-web client's round-orchestration engine
(React front end: `App.tsx`, `QuestionViewer`, `Timer`, `Leaderboard`,
`RoundSummary`).  Pure computations are translated to Lean functions; the
stateful React handlers become explicit state-passing functions returning the
new component state together with the list of observable effects (network
calls, scheduled callbacks) they emit.  JavaScript truthiness on optional
numbers, strings and booleans is modelled explicitly.
-/

/-- JS truthiness of an optional number: `undefined`/`null` and `0` are falsy. -/
def numTruthy : Option Nat → Bool
  | none => false
  | some n => n != 0

/-- JS truthiness of a string: only the empty string is falsy. -/
def strTruthy (s : String) : Bool := s != ""

/-- JS truthiness of an optional boolean: only `true` is truthy
(`undefined` and `false` are falsy). -/
def boolTruthy : Option Bool → Bool
  | some true => true
  | _ => false

/-- JS `s || d` on strings: the default `d` replaces an empty (falsy) `s`. -/
def jsOrStr (s d : String) : String := if s = "" then d else s

/-- JS `v || d` on optional numbers: `undefined` and `0` fall back to `d`. -/
def jsOrNat (v : Option Nat) (d : Nat) : Nat :=
  match v with
  | some n => if n = 0 then d else n
  | none => d

/-- The `List Char` version of JS `String.prototype.includes`. -/
def containsChars (pat : List Char) : List Char → Bool
  | [] => pat.isEmpty
  | c :: rest => pat.isPrefixOf (c :: rest) || containsChars pat rest

/-- JS `s.includes(pat)`. -/
def strIncludes (s pat : String) : Bool := containsChars pat.data s.data

/-- An answer option of a question (`Answer` in `types/question.ts`). -/
structure Answer where
  id : Nat
  text : String
  is_correct : Bool
deriving DecidableEq, Repr

/-- A quiz question (`Question` in `types/question.ts`); `time_limit` is an
optional number of seconds. -/
structure Question where
  id : Nat
  text : String
  answers : List Answer
  time_limit : Option Nat
deriving DecidableEq, Repr

/-- A leaderboard participant (`Participant` in `types/question.ts`).  `id`
and `is_eliminated` are optional so that JS truthiness checks in the
components (`p.id`, `is_eliminated === true`) can be modelled faithfully. -/
structure Participant where
  id : Option Nat
  name : String
  correct_answers : Int
  is_eliminated : Option Bool
  is_current_user : Option Bool
deriving DecidableEq, Repr

namespace Leaderboard

/-- The filter `participants.filter(p => p && p.id && p.name)` in `Leaderboard`. -/
def validParticipants (ps : List Participant) : List Participant :=
  ps.filter (fun p => numTruthy p.id && strTruthy p.name)

/-- The normalised elimination flag `a.is_eliminated === true` used by the
sidebar comparator. -/
def elimFlag (p : Participant) : Bool := boolTruthy p.is_eliminated

/-- The sidebar sort comparator: eliminated participants after active ones,
ties broken by descending `correct_answers`. -/
def cmp (a b : Participant) : Int :=
  if elimFlag a != elimFlag b then (if elimFlag a then 1 else -1)
  else b.correct_answers - a.correct_answers

/-- Whether `a` may be placed before `b` by a comparator-based sort. -/
def cmpLE (a b : Participant) : Prop := cmp a b ≤ 0

instance : DecidableRel cmpLE :=
  fun a b => inferInstanceAs (Decidable (cmp a b ≤ 0))

/-- The sidebar ranking: valid participants, stably sorted by `cmp`
(JS `Array.prototype.sort` is stable; insertion sort models it). -/
def sortedParticipants (ps : List Participant) : List Participant :=
  List.insertionSort cmpLE (validParticipants ps)

end Leaderboard

namespace RoundSummary

/-- The filter `participants.filter(p => p && p.id)` in `RoundSummary`. -/
def validParticipants (ps : List Participant) : List Participant :=
  ps.filter (fun p => numTruthy p.id)

/-- The round-summary comparator: it compares the raw `is_eliminated` values
(`a.is_eliminated !== b.is_eliminated`) and uses truthiness for direction. -/
def cmp (a b : Participant) : Int :=
  if a.is_eliminated != b.is_eliminated then (if boolTruthy a.is_eliminated then 1 else -1)
  else b.correct_answers - a.correct_answers

/-- Whether `a` may be placed before `b` by a comparator-based sort. -/
def cmpLE (a b : Participant) : Prop := cmp a b ≤ 0

instance : DecidableRel cmpLE :=
  fun a b => inferInstanceAs (Decidable (cmp a b ≤ 0))

/-- Valid participants sorted by the round-summary comparator. -/
def sortedParticipants (ps : List Participant) : List Participant :=
  List.insertionSort cmpLE (validParticipants ps)

/-- The group `sortedParticipants.filter(p => !p.is_eliminated)`. -/
def activeParticipants (ps : List Participant) : List Participant :=
  (sortedParticipants ps).filter (fun p => !boolTruthy p.is_eliminated)

/-- The group `sortedParticipants.filter(p => p.is_eliminated)`. -/
def eliminatedParticipants (ps : List Participant) : List Participant :=
  (sortedParticipants ps).filter (fun p => boolTruthy p.is_eliminated)

/-- The rendered ranking: the active cards followed by the eliminated cards. -/
def renderedRanking (ps : List Participant) : List Participant :=
  activeParticipants ps ++ eliminatedParticipants ps

end RoundSummary

namespace Timer

/-- Observable simulation state of the `Timer` component: the `timeLeft`
state variable, the number of `onTimeUp` invocations so far, and whether the
countdown interval is currently armed. -/
structure Sim where
  timeLeft : Int
  fires : Nat
  armed : Bool
deriving DecidableEq, Repr

/-- One run of the countdown `useEffect` body (deps `[timeLeft, isActive]`):
inactive resets the clock; a non-positive `timeLeft` invokes `onTimeUp` and
sets no interval; otherwise the interval is (re-)armed. -/
def effectRun (isActive : Bool) (initialTime : Int) (s : Sim) : Sim :=
  if !isActive then { s with timeLeft := initialTime, armed := false }
  else if s.timeLeft ≤ 0 then { s with fires := s.fires + 1, armed := false }
  else { s with armed := true }

/-- The `setInterval` callback: decrement, and invoke `onTimeUp` when the new
value reaches zero (the callback then stores `0`). -/
def tick (s : Sim) : Sim :=
  let newTime := s.timeLeft - 1
  if newTime ≤ 0 then { s with timeLeft := 0, fires := s.fires + 1 }
  else { s with timeLeft := newTime }

/-- Run the component for `fuel` seconds: while the interval is armed, each
second the interval callback fires and then the effect re-runs (its `timeLeft`
dependency changed, so the old interval is cleared and the body re-executes). -/
def loop (isActive : Bool) (initialTime : Int) : Nat → Sim → Sim
  | 0, s => s
  | fuel + 1, s =>
    if s.armed then loop isActive initialTime fuel (effectRun isActive initialTime (tick s))
    else s

/-- Mounting the component: `timeLeft` starts at `initialTime` and the effect
runs once. -/
def mount (initialTime : Int) (isActive : Bool) : Sim :=
  effectRun isActive initialTime { timeLeft := initialTime, fires := 0, armed := false }

/-- A whole activation: mount, then run for `fuel` seconds. -/
def run (initialTime : Int) (isActive : Bool) (fuel : Nat) : Sim :=
  loop isActive initialTime fuel (mount initialTime isActive)

end Timer

namespace QuestionViewer

/-- The `useState`/`useRef` cells of the `QuestionViewer` component that the
claims are about. -/
structure QVState where
  question : Option Question
  loading : Bool
  error : Option String
  selectedAnswer : Option Nat
  showResult : Bool
  timeExpired : Bool
  timerKey : Nat
  roundQuestionId : Option Nat
  isNextQuestionScheduled : Bool
  questionLoadTime : Option Nat
  previousQuestionId : Option Nat
deriving DecidableEq, Repr

/-- The props and surrounding context the handlers read. -/
structure QVCtx where
  gameId : Option Nat
  userId : Option Nat
  showRoundSummary : Bool
deriving DecidableEq, Repr

/-- Observable effects emitted by the handlers: network calls and scheduled
callbacks. -/
inductive QVEffect where
  | sendAnswer (questionId : Nat) (answerId : Nat) (isCorrect : Bool)
  | scheduleNextQuestion (delayMs : Nat)
  | scheduleRefetch (delayMs : Nat) (retryCount : Nat) (silent : Bool)
  | markDisplayed (roundQuestionId : Nat)
  | questionLoaded (q : Question)
  | questionChange (id : Nat)
  | roundComplete
deriving DecidableEq, Repr

/-- The handler `handleTimeUp`: guarded by `showRoundSummary`, a loaded question and the
`isNextQuestionScheduled` ref; when no result is shown yet it registers the
timeout (shows the correct answer) and submits the first incorrect answer as a
placeholder, provided `gameId`, `userId` and `roundQuestionId` are truthy;
it always ends by scheduling the next-question fetch 2500 ms later. -/
def handleTimeUp (ctx : QVCtx) (s : QVState) : QVState × List QVEffect :=
  if ctx.showRoundSummary then (s, [])
  else match s.question with
  | none => (s, [])
  | some q =>
    if s.isNextQuestionScheduled then (s, [])
    else
      let s1 : QVState := { s with isNextQuestionScheduled := true }
      let step2 : QVState × List QVEffect :=
        if !s1.showResult then
          let s2 : QVState := { s1 with timeExpired := true, showResult := true }
          match q.answers.find? (fun a => !a.is_correct) with
          | some wrong =>
            if numTruthy ctx.gameId && numTruthy ctx.userId && numTruthy s2.roundQuestionId then
              (s2, [QVEffect.sendAnswer q.id wrong.id false])
            else (s2, [])
          | none => (s2, [])
        else (s1, [])
      (step2.1, step2.2 ++ [QVEffect.scheduleNextQuestion 2500])

/-- The handler `handleAnswerClick`: a no-op once a result is shown; otherwise it submits
the clicked answer (when the POST can be issued) and marks the result shown. -/
def handleAnswerClick (ctx : QVCtx) (s : QVState) (answerId : Nat) : QVState × List QVEffect :=
  if s.showResult then (s, [])
  else
    let sendEffs : List QVEffect :=
      match s.question with
      | some q =>
        match q.answers.find? (fun a => a.id == answerId) with
        | some sel =>
          if numTruthy ctx.gameId && numTruthy ctx.userId then
            [QVEffect.sendAnswer q.id answerId sel.is_correct]
          else []
        | none => []
      | none => []
    ({ s with selectedAnswer := some answerId, showResult := true }, sendEffs)

/-- The user-visible events that can resolve the active question. -/
inductive QVEvent where
  | answerClick (answerId : Nat)
  | timeUp
deriving DecidableEq, Repr

/-- Dispatch one event to its handler. -/
def qvStep (ctx : QVCtx) (s : QVState) : QVEvent → QVState × List QVEffect
  | QVEvent.answerClick aid => handleAnswerClick ctx s aid
  | QVEvent.timeUp => handleTimeUp ctx s

/-- Run an arbitrary interleaving of answer clicks and timer expiries,
accumulating the emitted effects. -/
def runQVEvents (ctx : QVCtx) (s : QVState) : List QVEvent → QVState × List QVEffect
  | [] => (s, [])
  | e :: es =>
    let r1 := qvStep ctx s e
    let r2 := runQVEvents ctx r1.1 es
    (r2.1, r1.2 ++ r2.2)

/-- Whether an effect is an answer-submission POST. -/
def isSendAnswer : QVEffect → Bool
  | QVEffect.sendAnswer _ _ _ => true
  | _ => false

/-- Number of answer-submission POSTs in an effect list. -/
def countSends (effs : List QVEffect) : Nat := (effs.filter isSendAnswer).length

/-- The status-dependent payload of a question-delivery response:
`status`, the error `detail` (for non-2xx answers) and, on success, the
question together with the raw `round_question_id`. -/
structure FetchResponse where
  status : Nat
  detail : String
  payload : Option (Question × Option Nat)
deriving DecidableEq, Repr

/-- The check `response.ok`: HTTP status in `[200, 300)`. -/
def respOk (status : Nat) : Bool := 200 ≤ status && status < 300

/-- The coercion `data.round_question_id || null`: a missing or zero id becomes `null`. -/
def normRoundQuestionId : Option Nat → Option Nat
  | some n => if n = 0 then none else some n
  | none => none

/-- The poller `fetchRandomQuestion(retryCount, options)` applied to the response the
collaborator returns.  Faithful to the source: the reentrancy guard on entry,
the `preserveState` computation, the upfront UI reset when state is not
preserved, the `202` and transient-`400` retry loops (30 attempts, 1 s apart),
the terminal round-complete signal, the malformed-payload retries (5, then a
terminal error), the same-question no-op refresh, the success side effects,
and the catch-all network retry (3 attempts). -/
def fetchRandomQuestion (ctx : QVCtx) (s : QVState) (retryCount : Nat) (silent : Bool)
    (resp : FetchResponse) (now : Nat) : QVState × List QVEffect :=
  let preserveState := silent || (s.showResult && s.question.isSome && numTruthy s.roundQuestionId)
  if s.isNextQuestionScheduled && retryCount == 0 then (s, [])
  else
    let s0 := if retryCount == 0 then { s with isNextQuestionScheduled := true } else s
    let s0 :=
      if preserveState then { s0 with error := none }
      else { s0 with loading := true, error := none, selectedAnswer := none,
                     showResult := false, timeExpired := false, timerKey := s0.timerKey + 1 }
    if !respOk resp.status then
      if resp.status == 202 then
        if retryCount < 30 then (s0, [QVEffect.scheduleRefetch 1000 (retryCount + 1) false])
        else ({ s0 with error := some (jsOrStr resp.detail "Игра ожидает начала. Пожалуйста, подождите..."),
                        loading := false, isNextQuestionScheduled := false }, [])
      else if resp.status == 400 then
        let errorDetail := jsOrStr resp.detail "Round completed"
        if (strIncludes errorDetail "No active round" || strIncludes errorDetail "not in progress")
            && retryCount < 30 then
          (s0, [QVEffect.scheduleRefetch 1000 (retryCount + 1) false])
        else
          ({ s0 with error := none, loading := false, isNextQuestionScheduled := false },
           [QVEffect.roundComplete])
      else
        -- `throw new Error(...)` lands in the catch-all: 3 transient retries
        if retryCount < 3 then (s0, [QVEffect.scheduleRefetch 1000 (retryCount + 1) false])
        else ({ s0 with error := some "Не удалось загрузить вопрос",
                        loading := false, isNextQuestionScheduled := false }, [])
    else
      match resp.payload with
      | none =>
        if retryCount < 5 then (s0, [QVEffect.scheduleRefetch 1000 (retryCount + 1) false])
        else
          -- the thrown error is caught; retryCount ≥ 5 > 3, so it surfaces
          ({ s0 with error := some "Invalid response from server: question is missing",
                     loading := false, isNextQuestionScheduled := false }, [])
      | some (q, rawRqid) =>
        let newRoundQuestionId := normRoundQuestionId rawRqid
        let isSameQuestion :=
          (match s.question with
           | some q0 => q.id == q0.id
           | none => false) && newRoundQuestionId == s.roundQuestionId
        if isSameQuestion then
          let effs :=
            if preserveState && retryCount < 30 then
              [QVEffect.scheduleRefetch 1000 (retryCount + 1) true]
            else []
          ({ s0 with loading := false, isNextQuestionScheduled := false }, effs)
        else
          let s1 : QVState :=
            { s0 with selectedAnswer := none, showResult := false, timeExpired := false,
                      timerKey := s0.timerKey + 1, question := some q,
                      roundQuestionId := newRoundQuestionId, questionLoadTime := some now,
                      previousQuestionId := if q.id ≠ 0 then some q.id else s0.previousQuestionId }
          let markEffs : List QVEffect :=
            match rawRqid with
            | some n => if n = 0 then [] else [QVEffect.markDisplayed n]
            | none => []
          if q.id == 0 then
            -- `Question ID is missing in response` is thrown and caught
            if retryCount < 3 then
              (s1, markEffs ++ [QVEffect.questionLoaded q,
                                QVEffect.scheduleRefetch 1000 (retryCount + 1) false])
            else
              ({ s1 with error := some "Question ID is missing in response",
                         loading := false, isNextQuestionScheduled := false },
               markEffs ++ [QVEffect.questionLoaded q])
          else
            ({ s1 with loading := false, isNextQuestionScheduled := false },
             markEffs ++ [QVEffect.questionLoaded q, QVEffect.questionChange q.id])

/-- The JSON body `sendAnswer` POSTs to `/api/answer`. -/
structure AnswerPayload where
  question_id : Nat
  answer_id : Nat
  is_correct : Bool
  game_id : Nat
  user_id : Nat
  round_question_id : Option Nat
  selected_option : Option String
  answer_time : Option ℚ
deriving DecidableEq, Repr

/-- The fallback `question?.time_limit || 10`. -/
def effectiveTimeLimit (q : Option Question) : Nat :=
  match q with
  | some qq =>
    match qq.time_limit with
    | some t => if t = 0 then 10 else t
    | none => 10
  | none => 10

/-- The `A`/`B`/`C`/`D` label for answer ids 1..4, `null` otherwise. -/
def optionLetterFor (answerId : Nat) : Option String :=
  if 1 ≤ answerId && answerId ≤ 4 then some (["A", "B", "C", "D"].getD (answerId - 1) "")
  else none

/-- The elapsed-time computation of `sendAnswer`: when a (truthy) load
timestamp exists, `min((now - loadTime) / 1000, timeLimit)` seconds. -/
def computeAnswerTime (questionLoadTime : Option Nat) (now : Nat) (q : Option Question) : Option ℚ :=
  match questionLoadTime with
  | some t =>
    if t = 0 then none
    else
      let timeElapsed : ℚ := ((now : ℚ) - (t : ℚ)) / 1000
      some (min timeElapsed ((effectiveTimeLimit q : Nat) : ℚ))
  | none => none

/-- The payload assembled by `sendAnswer(questionId, answerId, isCorrect)`. -/
def sendAnswerPayload (gameId userId : Nat) (roundQuestionId : Option Nat)
    (questionLoadTime : Option Nat) (q : Option Question) (now : Nat)
    (questionId answerId : Nat) (isCorrect : Bool) : AnswerPayload :=
  { question_id := questionId
    answer_id := answerId
    is_correct := isCorrect
    game_id := gameId
    user_id := userId
    round_question_id := roundQuestionId
    selected_option := optionLetterFor answerId
    answer_time := computeAnswerTime questionLoadTime now q }

end QuestionViewer

namespace App

/-- The `App` component state relevant to round completion and the
leaderboard poller. -/
structure AppState where
  roundFinishRequested : Bool
  roundCompleted : Bool
  showRoundSummary : Bool
  questionId : Option Nat
  currentQuestion : Option Question
  gameFinishedAllHumansEliminated : Bool
  participants : List Participant
  currentQuestionNumber : Nat
  totalQuestions : Nat
deriving DecidableEq, Repr

/-- The response of `POST /api/round/finish-current`. -/
structure FinishRoundResponse where
  ok : Bool
  all_humans_eliminated : Option Bool
  game_status : Option String
deriving DecidableEq, Repr

/-- Network calls issued by the `App` handlers. -/
inductive AppEffect where
  | finishCurrentRound (gameId : Nat)
  | fetchLeaderboardCall (updateQuestionNumber : Bool)
deriving DecidableEq, Repr

/-- The `onRoundComplete` callback: one-shot via `roundFinishRequestedRef`;
posts `/api/round/finish-current` (when `gameId` is truthy and
`roundNumber > 0`), reacts to the all-eliminated flag, then marks the round
completed, shows the summary, clears the active question and refreshes the
leaderboard authoritatively. -/
def onRoundComplete (gameId : Option Nat) (roundNumber : Nat) (resp : FinishRoundResponse)
    (s : AppState) : AppState × List AppEffect :=
  if s.roundFinishRequested then (s, [])
  else
    let s1 : AppState := { s with roundFinishRequested := true }
    let step2 : AppState × List AppEffect :=
      match gameId with
      | some g =>
        if g ≠ 0 ∧ 0 < roundNumber then
          let s2 :=
            if resp.ok && (resp.all_humans_eliminated == some true
                           || resp.game_status == some "finished") then
              { s1 with gameFinishedAllHumansEliminated := true }
            else s1
          (s2, [AppEffect.finishCurrentRound g])
        else (s1, [])
      | none => (s1, [])
    ({ step2.1 with roundCompleted := true, showRoundSummary := true,
                    questionId := none, currentQuestion := none },
     step2.2 ++ [AppEffect.fetchLeaderboardCall true])

/-- Runs `n` racing invocations of `onRoundComplete` (timeout path and answer path
can both observe the terminal signal), run back to back. -/
def onRoundCompleteRuns (gameId : Option Nat) (roundNumber : Nat) (resp : FinishRoundResponse) :
    Nat → AppState → AppState × List AppEffect
  | 0, s => (s, [])
  | n + 1, s =>
    let r1 := onRoundComplete gameId roundNumber resp s
    let r2 := onRoundCompleteRuns gameId roundNumber resp n r1.1
    (r2.1, r1.2 ++ r2.2)

/-- Number of `/api/round/finish-current` POSTs in an effect list. -/
def countFinish (effs : List AppEffect) : Nat :=
  (effs.filter (fun e =>
    match e with
    | AppEffect.finishCurrentRound _ => true
    | _ => false)).length

/-- The body of `/api/leaderboard` responses. -/
structure LeaderboardResponse where
  ok : Bool
  participants : List Participant
  current_question_number : Option Nat
  total_questions : Option Nat
deriving DecidableEq, Repr

/-- The poller `fetchLeaderboard(updateQuestionNumber)` applied to a response: always
refreshes the participant list and the total-questions value; the displayed
question-progress counter is written only when `updateQuestionNumber` is
`true`; the summary flag is raised only when the round was already marked
completed. -/
def fetchLeaderboard (updateQuestionNumber : Bool) (resp : LeaderboardResponse)
    (s : AppState) : AppState :=
  if resp.ok then
    let questionNum := jsOrNat resp.current_question_number 1
    let totalQ := jsOrNat resp.total_questions 10
    let s1 : AppState := { s with participants := resp.participants }
    let s2 := if updateQuestionNumber then { s1 with currentQuestionNumber := questionNum } else s1
    let s3 : AppState := { s2 with totalQuestions := totalQ }
    if s3.roundCompleted && !s3.showRoundSummary then { s3 with showRoundSummary := true }
    else s3
  else s

/-- One tick of the 2-second leaderboard polling interval: a background
(non-authoritative) refresh, skipped during the round summary. -/
def leaderboardPollTick (gameId userId : Option Nat) (resp : LeaderboardResponse)
    (s : AppState) : AppState :=
  if !s.showRoundSummary && numTruthy gameId && numTruthy userId then
    fetchLeaderboard false resp s
  else s

end App

/-! ### Concrete fixtures used by the witnesses -/

/-- A concrete question with one incorrect and one correct answer. -/
def sampleQuestion : Question :=
  { id := 5, text := "q",
    answers := [{ id := 1, text := "a", is_correct := false },
                { id := 2, text := "b", is_correct := true }],
    time_limit := some 10 }

/-- A concrete `QuestionViewer` context with a live game. -/
def sampleCtx : QuestionViewer.QVCtx :=
  { gameId := some 1, userId := some 2, showRoundSummary := false }

/-- A freshly loaded, unresolved question state. -/
def sampleFreshState : QuestionViewer.QVState :=
  { question := some sampleQuestion, loading := false, error := none,
    selectedAnswer := none, showResult := false, timeExpired := false,
    timerKey := 3, roundQuestionId := some 7, isNextQuestionScheduled := false,
    questionLoadTime := some 1000, previousQuestionId := some 5 }

/-- The same state after a result has been registered. -/
def sampleShownState : QuestionViewer.QVState :=
  { sampleFreshState with showResult := true }

/-- A concrete `App` state in the playing phase. -/
def sampleAppState : App.AppState :=
  { roundFinishRequested := false, roundCompleted := false, showRoundSummary := false,
    questionId := some 5, currentQuestion := some sampleQuestion,
    gameFinishedAllHumansEliminated := false, participants := [],
    currentQuestionNumber := 3, totalQuestions := 10 }

/-- A concrete finish-round response. -/
def sampleFinishResponse : App.FinishRoundResponse :=
  { ok := true, all_humans_eliminated := some false, game_status := some "in_progress" }

/-- Concrete participants: active, eliminated, and invalid ones. -/
def pAlice : Participant :=
  { id := some 1, name := "Alice", correct_answers := 3,
    is_eliminated := some false, is_current_user := some true }

/-- An active participant with a higher score than `pAlice`. -/
def pBob : Participant :=
  { id := some 2, name := "Bob", correct_answers := 5,
    is_eliminated := some false, is_current_user := some false }

/-- An eliminated participant. -/
def pCarol : Participant :=
  { id := some 3, name := "Carol", correct_answers := 1,
    is_eliminated := some true, is_current_user := some false }

/-- An eliminated participant with a higher score than `pCarol`. -/
def pDave : Participant :=
  { id := some 4, name := "Dave", correct_answers := 4,
    is_eliminated := some true, is_current_user := some false }

/-- A participant with a missing id. -/
def pGhost : Participant :=
  { id := none, name := "Ghost", correct_answers := 9,
    is_eliminated := some false, is_current_user := some false }

/-- A participant with id `0`. -/
def pZero : Participant :=
  { id := some 0, name := "Zero", correct_answers := 9,
    is_eliminated := some false, is_current_user := some false }

/-- A participant with an empty name. -/
def pNoName : Participant :=
  { id := some 6, name := "", correct_answers := 9,
    is_eliminated := some false, is_current_user := some false }

/-- A concrete leaderboard response. -/
def sampleLeaderboardResponse : App.LeaderboardResponse :=
  { ok := true, participants := [pAlice, pBob],
    current_question_number := some 4, total_questions := some 10 }

/-- A `202` transitional response ("not started yet"). -/
def resp202 : QuestionViewer.FetchResponse :=
  { status := 202, detail := "Game is waiting to start", payload := none }

/-- A `400` transient response during round creation. -/
def respNoActiveRound : QuestionViewer.FetchResponse :=
  { status := 400, detail := "No active round found", payload := none }

/-- A successful response repeating the already-displayed question. -/
def respSameQuestion : QuestionViewer.FetchResponse :=
  { status := 200, detail := "", payload := some (sampleQuestion, some 7) }

/-! ### Timer lemmas (C4) -/

/-- Once the interval is no longer armed the simulation is quiescent. -/
theorem Timer.loop_not_armed (isActive : Bool) (initialTime : Int) (fuel : Nat)
    (s : Timer.Sim) (h : s.armed = false) :
    Timer.loop isActive initialTime fuel s = s := by
  cases fuel <;> simp [Timer.loop, h]

/-- From an armed state with `0 < timeLeft ≤ fuel`, the activation ends with
exactly two more `onTimeUp` invocations: one from the interval callback that
reaches zero and one from the effect re-running on the zero state. -/
theorem Timer.loop_armed_fires (initialTime : Int) :
    ∀ (fuel : Nat) (t : Int) (f : Nat), 0 < t → t ≤ (fuel : Int) →
      (Timer.loop true initialTime fuel { timeLeft := t, fires := f, armed := true }).fires
        = f + 2 := by
  intro fuel
  induction fuel with
  | zero =>
    intro t f ht hle
    exact absurd ht (by omega)
  | succ n ih =>
    intro t f ht hle
    by_cases h1 : t = 1
    · subst h1
      have : Timer.loop true initialTime (n + 1) { timeLeft := 1, fires := f, armed := true }
          = Timer.loop true initialTime n { timeLeft := 0, fires := f + 2, armed := false } := by
        simp [Timer.loop, Timer.tick, Timer.effectRun]
      rw [this, Timer.loop_not_armed _ _ _ _ rfl]
    · have ht2 : (2 : Int) ≤ t := by omega
      have : Timer.loop true initialTime (n + 1) { timeLeft := t, fires := f, armed := true }
          = Timer.loop true initialTime n { timeLeft := t - 1, fires := f, armed := true } := by
        have hgt : ¬ (t - 1 ≤ 0) := by omega
        simp [Timer.loop, Timer.tick, Timer.effectRun, hgt]
      rw [this]
      exact ih (t - 1) f (by omega) (by omega)

/-- C4 (amended): for every activation with a positive `timeLimit` and enough
elapsed seconds, `onExpire` is invoked exactly twice — once when the countdown
step reaches zero and once more when the countdown effect re-runs and observes
zero — and never again afterwards without a restart. -/
theorem C4_timer_fires_exactly_twice (T : Int) (fuel : Nat)
    (hT : 0 < T) (hfuel : T ≤ (fuel : Int)) :
    (Timer.run T true fuel).fires = 2 := by
  have hmount : Timer.mount T true = { timeLeft := T, fires := 0, armed := true } := by
    have : ¬ (T ≤ 0) := by omega
    simp [Timer.mount, Timer.effectRun, this]
  rw [Timer.run, hmount]
  exact Timer.loop_armed_fires T fuel T 0 hT hfuel

/-- C4 (counterexample): with `timeLimit = 3` and the countdown left active,
`onExpire` fires twice, not exactly once as the claim states. -/
theorem C4_counterexample :
    (Timer.run 3 true 10).fires = 2 ∧ (Timer.run 3 true 10).fires ≠ 1 := by
  decide

/-- C4 witness: the amended theorem applied at `timeLimit = 3`, `fuel = 10`. -/
theorem C4_witness :
    (0 : Int) < 3 ∧ (3 : Int) ≤ (10 : Nat) ∧ (Timer.run 3 true 10).fires = 2 :=
  ⟨by norm_num, by norm_num, C4_timer_fires_exactly_twice 3 10 (by norm_num) (by norm_num)⟩

/-! ### Answer-submission payload (C8) -/

/-- C8: for every submission with a truthy question-load timestamp, the
elapsed time in the payload is `min((now - loadTime) / 1000, timeLimit)`
seconds, and whenever the raw elapsed time does not exceed the limit it is
sent unclamped. -/
theorem C8_elapsed_equals_min (gameId userId : Nat) (rq : Option Nat) (t now : Nat)
    (q : Option Question) (qid aid : Nat) (c : Bool) (ht : t ≠ 0) :
    (QuestionViewer.sendAnswerPayload gameId userId rq (some t) q now qid aid c).answer_time
      = some (min (((now : ℚ) - (t : ℚ)) / 1000) ((QuestionViewer.effectiveTimeLimit q : Nat) : ℚ))
    ∧ ((((now : ℚ) - (t : ℚ)) / 1000) ≤ ((QuestionViewer.effectiveTimeLimit q : Nat) : ℚ) →
      (QuestionViewer.sendAnswerPayload gameId userId rq (some t) q now qid aid c).answer_time
        = some (((now : ℚ) - (t : ℚ)) / 1000)) := by
  constructor
  · simp [QuestionViewer.sendAnswerPayload, QuestionViewer.computeAnswerTime, ht]
  · intro h
    simp [QuestionViewer.sendAnswerPayload, QuestionViewer.computeAnswerTime, ht, min_eq_left h]

/-- C8 witness: an answer given 4200 ms after the load with `timeLimit = 10`
carries elapsed time `4.2`, unclamped. -/
theorem C8_witness :
    (1000 : Nat) ≠ 0 ∧
    (QuestionViewer.sendAnswerPayload 1 2 (some 7) (some 1000) (some sampleQuestion)
        5200 5 2 true).answer_time = some (4.2 : ℚ) := by
  refine ⟨by norm_num, ?_⟩
  have h := (C8_elapsed_equals_min 1 2 (some 7) 1000 5200 (some sampleQuestion) 5 2 true
    (by norm_num)).1
  rw [h]
  norm_num [QuestionViewer.effectiveTimeLimit, sampleQuestion]

/-! ### Leaderboard polling (C9) -/

/-- Field-level description of one `fetchLeaderboard` call on a successful
response. -/
theorem App.fetchLeaderboard_ok_fields (b : Bool) (resp : App.LeaderboardResponse)
    (s : App.AppState) (hok : resp.ok = true) :
    (App.fetchLeaderboard b resp s).participants = resp.participants
    ∧ (App.fetchLeaderboard b resp s).totalQuestions = jsOrNat resp.total_questions 10
    ∧ (App.fetchLeaderboard b resp s).currentQuestionNumber
        = (if b then jsOrNat resp.current_question_number 1 else s.currentQuestionNumber) := by
  simp only [App.fetchLeaderboard, hok, if_true]
  cases b <;> simp only [if_true, if_false, Bool.false_eq_true] <;> split <;> simp

/-- C9: a background (non-authoritative) leaderboard poll never changes the
displayed question-progress counter, while every successful poll refreshes the
participant list and the total-questions value; only an authoritative refresh
(`updateQuestionNumber = true`, issued right after a question load) writes the
counter. -/
theorem C9_background_poll_preserves_counter (gameId userId : Option Nat)
    (resp : App.LeaderboardResponse) (s : App.AppState) :
    (App.leaderboardPollTick gameId userId resp s).currentQuestionNumber
        = s.currentQuestionNumber
    ∧ (App.fetchLeaderboard false resp s).currentQuestionNumber = s.currentQuestionNumber
    ∧ (resp.ok = true →
        (App.fetchLeaderboard false resp s).participants = resp.participants
        ∧ (App.fetchLeaderboard false resp s).totalQuestions = jsOrNat resp.total_questions 10
        ∧ (App.fetchLeaderboard true resp s).participants = resp.participants
        ∧ (App.fetchLeaderboard true resp s).currentQuestionNumber
            = jsOrNat resp.current_question_number 1) := by
  have hfalse : (App.fetchLeaderboard false resp s).currentQuestionNumber
      = s.currentQuestionNumber := by
    by_cases hok : resp.ok = true
    · simpa using (App.fetchLeaderboard_ok_fields false resp s hok).2.2
    · simp [App.fetchLeaderboard, hok]
  refine ⟨?_, hfalse, ?_⟩
  · by_cases hpoll : (!s.showRoundSummary && numTruthy gameId && numTruthy userId) = true
    · rw [App.leaderboardPollTick, if_pos hpoll]
      exact hfalse
    · rw [App.leaderboardPollTick, if_neg hpoll]
  · intro hok
    obtain ⟨hp, ht, _⟩ := App.fetchLeaderboard_ok_fields false resp s hok
    obtain ⟨hp2, _, hc2⟩ := App.fetchLeaderboard_ok_fields true resp s hok
    exact ⟨hp, ht, hp2, by simpa using hc2⟩

/-- C9 witness: the theorem applied to a concrete background poll. -/
theorem C9_witness :
    (App.leaderboardPollTick (some 1) (some 2) sampleLeaderboardResponse
        sampleAppState).currentQuestionNumber = 3
    ∧ sampleLeaderboardResponse.ok = true
    ∧ (App.fetchLeaderboard false sampleLeaderboardResponse sampleAppState).participants
        = [pAlice, pBob] := by
  have h := C9_background_poll_preserves_counter (some 1) (some 2)
    sampleLeaderboardResponse sampleAppState
  exact ⟨h.1, rfl, (h.2.2 rfl).1⟩

/-! ### Round-finish one-shot (C1) -/

/-- A second `onRoundComplete` while the one-shot flag is set is a no-op. -/
theorem App.onRoundComplete_noop (gameId : Option Nat) (roundNumber : Nat)
    (resp : App.FinishRoundResponse) (s : App.AppState)
    (h : s.roundFinishRequested = true) :
    App.onRoundComplete gameId roundNumber resp s = (s, []) := by
  simp [App.onRoundComplete, h]

/-- Any number of further invocations from a flag-set state does nothing. -/
theorem App.onRoundCompleteRuns_noop (gameId : Option Nat) (roundNumber : Nat)
    (resp : App.FinishRoundResponse) (n : Nat) (s : App.AppState)
    (h : s.roundFinishRequested = true) :
    App.onRoundCompleteRuns gameId roundNumber resp n s = (s, []) := by
  induction n with
  | zero => rfl
  | succ m ih =>
    simp [App.onRoundCompleteRuns, App.onRoundComplete_noop _ _ _ _ h, ih]

/-- The first `onRoundComplete` posts the finish call, raises the flag, shows
the summary and clears the active question. -/
theorem App.onRoundComplete_first (g : Nat) (roundNumber : Nat)
    (resp : App.FinishRoundResponse) (s : App.AppState)
    (h : s.roundFinishRequested = false) (hg : g ≠ 0) (hr : 0 < roundNumber) :
    (App.onRoundComplete (some g) roundNumber resp s).2
        = [App.AppEffect.finishCurrentRound g, App.AppEffect.fetchLeaderboardCall true]
    ∧ (App.onRoundComplete (some g) roundNumber resp s).1.roundFinishRequested = true
    ∧ (App.onRoundComplete (some g) roundNumber resp s).1.showRoundSummary = true
    ∧ (App.onRoundComplete (some g) roundNumber resp s).1.questionId = none
    ∧ (App.onRoundComplete (some g) roundNumber resp s).1.currentQuestion = none := by
  simp only [App.onRoundComplete, h, Bool.false_eq_true, if_false, if_pos (And.intro hg hr)]
  split <;> simp

/-- C1: however many times the completion callback races itself (`n ≥ 1`
invocations, timeout path and answer path both observing the terminal
signal), `/api/round/finish-current` is posted exactly once, the session shows
the round summary, the active question is cleared, and any invocation made
while the one-shot flag is set is a no-op. -/
theorem C1_round_finish_once (g : Nat) (roundNumber : Nat)
    (resp : App.FinishRoundResponse) (s : App.AppState) (n : Nat)
    (hflag : s.roundFinishRequested = false) (hg : g ≠ 0) (hr : 0 < roundNumber)
    (hn : 1 ≤ n) :
    App.countFinish (App.onRoundCompleteRuns (some g) roundNumber resp n s).2 = 1
    ∧ (App.onRoundCompleteRuns (some g) roundNumber resp n s).1.showRoundSummary = true
    ∧ (App.onRoundCompleteRuns (some g) roundNumber resp n s).1.questionId = none
    ∧ (App.onRoundCompleteRuns (some g) roundNumber resp n s).1.currentQuestion = none
    ∧ (∀ s2 : App.AppState, s2.roundFinishRequested = true →
        App.onRoundComplete (some g) roundNumber resp s2 = (s2, [])) := by
  obtain ⟨m, rfl⟩ : ∃ m, n = m + 1 := ⟨n - 1, by omega⟩
  obtain ⟨heffs, hreq, hsum, hqid, hcq⟩ := App.onRoundComplete_first g roundNumber resp s hflag hg hr
  have hrest := App.onRoundCompleteRuns_noop (some g) roundNumber resp m
    (App.onRoundComplete (some g) roundNumber resp s).1 hreq
  have hrun : App.onRoundCompleteRuns (some g) roundNumber resp (m + 1) s
      = ((App.onRoundComplete (some g) roundNumber resp s).1,
         (App.onRoundComplete (some g) roundNumber resp s).2 ++ []) := by
    rw [App.onRoundCompleteRuns, hrest]
  rw [hrun]
  refine ⟨?_, hsum, hqid, hcq, fun s2 h2 => App.onRoundComplete_noop _ _ _ _ h2⟩
  rw [heffs]
  rfl

/-- C1 witness: the theorem applied to two racing invocations on a concrete
playing state. -/
theorem C1_witness :
    sampleAppState.roundFinishRequested = false ∧
    App.countFinish (App.onRoundCompleteRuns (some 1) 1 sampleFinishResponse 2
        sampleAppState).2 = 1 := by
  refine ⟨rfl, ?_⟩
  exact (C1_round_finish_once 1 1 sampleFinishResponse sampleAppState 2 rfl
    (by norm_num) (by norm_num) (by norm_num)).1

/-! ### Answer-pipeline one-shot (C2, C3) -/

namespace QuestionViewer

/-- Once a result is shown, an event step emits no submission and keeps the
result shown. -/
theorem qvStep_shown (ctx : QVCtx) (s : QVState) (e : QVEvent)
    (h : s.showResult = true) :
    countSends (qvStep ctx s e).2 = 0 ∧ (qvStep ctx s e).1.showResult = true := by
  cases e with
  | answerClick aid =>
    simp [qvStep, handleAnswerClick, h, countSends]
  | timeUp =>
    by_cases hsum : ctx.showRoundSummary = true
    · simp [qvStep, handleTimeUp, hsum, countSends, h]
    · cases hq : s.question with
      | none => simp [qvStep, handleTimeUp, hsum, hq, countSends, h]
      | some q =>
        by_cases hflag : s.isNextQuestionScheduled = true
        · simp [qvStep, handleTimeUp, hsum, hq, hflag, countSends, h]
        · simp [qvStep, handleTimeUp, hsum, hq, hflag, countSends, isSendAnswer, h]

/-- Every event step either emits no submission, or emits exactly one and
leaves the component in the result-shown state. -/
theorem qvStep_send_cases (ctx : QVCtx) (s : QVState) (e : QVEvent) :
    countSends (qvStep ctx s e).2 = 0
    ∨ (countSends (qvStep ctx s e).2 = 1 ∧ (qvStep ctx s e).1.showResult = true) := by
  by_cases h : s.showResult = true
  · exact Or.inl (qvStep_shown ctx s e h).1
  cases e with
  | answerClick aid =>
    cases hq : s.question with
    | none => exact Or.inl (by simp [qvStep, handleAnswerClick, h, hq, countSends])
    | some q =>
      cases hf : q.answers.find? (fun a => a.id == aid) with
      | none => exact Or.inl (by simp [qvStep, handleAnswerClick, h, hq, hf, countSends])
      | some sel =>
        by_cases hgu : (numTruthy ctx.gameId && numTruthy ctx.userId) = true
        · exact Or.inr (by
            simp [qvStep, handleAnswerClick, h, hq, hf, hgu, countSends, isSendAnswer])
        · exact Or.inl (by simp [qvStep, handleAnswerClick, h, hq, hf, hgu, countSends])
  | timeUp =>
    by_cases hsum : ctx.showRoundSummary = true
    · exact Or.inl (by simp [qvStep, handleTimeUp, hsum, countSends])
    cases hq : s.question with
    | none => exact Or.inl (by simp [qvStep, handleTimeUp, hsum, hq, countSends])
    | some q =>
      by_cases hflag : s.isNextQuestionScheduled = true
      · exact Or.inl (by simp [qvStep, handleTimeUp, hsum, hq, hflag, countSends])
      cases hf : q.answers.find? (fun a => !a.is_correct) with
      | none =>
        exact Or.inl (by
          simp [qvStep, handleTimeUp, hsum, hq, hflag, h, hf, countSends, isSendAnswer])
      | some w =>
        by_cases hgur : (numTruthy ctx.gameId && numTruthy ctx.userId
            && numTruthy s.roundQuestionId) = true
        · exact Or.inr (by
            simp [qvStep, handleTimeUp, hsum, hq, hflag, h, hf, hgur, countSends, isSendAnswer])
        · exact Or.inl (by
            simp [qvStep, handleTimeUp, hsum, hq, hflag, h, hf, hgur, countSends, isSendAnswer])

end QuestionViewer

/-- C2: over every interleaving of answer clicks and timer expiries on the
active question, at most one `submitAnswer` POST is issued; and from a state
where a result has already been registered (the "result already shown" flag),
no submission at all is issued. -/
theorem C2_submitAnswer_at_most_once (ctx : QuestionViewer.QVCtx)
    (s : QuestionViewer.QVState) (evs : List QuestionViewer.QVEvent) :
    QuestionViewer.countSends (QuestionViewer.runQVEvents ctx s evs).2 ≤ 1
    ∧ (s.showResult = true →
        QuestionViewer.countSends (QuestionViewer.runQVEvents ctx s evs).2 = 0) := by
  induction evs generalizing s with
  | nil => simp [QuestionViewer.runQVEvents, QuestionViewer.countSends]
  | cons e es ih =>
    have hcount : QuestionViewer.countSends (QuestionViewer.runQVEvents ctx s (e :: es)).2
        = QuestionViewer.countSends (QuestionViewer.qvStep ctx s e).2
          + QuestionViewer.countSends
              (QuestionViewer.runQVEvents ctx (QuestionViewer.qvStep ctx s e).1 es).2 := by
      simp [QuestionViewer.runQVEvents, QuestionViewer.countSends, List.filter_append]
    constructor
    · rw [hcount]
      rcases QuestionViewer.qvStep_send_cases ctx s e with h0 | ⟨h1, hsr⟩
      · have := (ih (QuestionViewer.qvStep ctx s e).1).1
        omega
      · have := (ih (QuestionViewer.qvStep ctx s e).1).2 hsr
        omega
    · intro h
      obtain ⟨hz, hsr⟩ := QuestionViewer.qvStep_shown ctx s e h
      rw [hcount, hz, (ih (QuestionViewer.qvStep ctx s e).1).2 hsr]

/-- C2 witness: the theorem applied to a timeout racing a click on a fresh
question, and to an already-resolved question. -/
theorem C2_witness :
    QuestionViewer.countSends (QuestionViewer.runQVEvents sampleCtx sampleFreshState
        [QuestionViewer.QVEvent.timeUp, QuestionViewer.QVEvent.answerClick 2]).2 ≤ 1
    ∧ sampleShownState.showResult = true
    ∧ QuestionViewer.countSends (QuestionViewer.runQVEvents sampleCtx sampleShownState
        [QuestionViewer.QVEvent.timeUp, QuestionViewer.QVEvent.answerClick 2]).2 = 0 :=
  ⟨(C2_submitAnswer_at_most_once sampleCtx sampleFreshState
      [QuestionViewer.QVEvent.timeUp, QuestionViewer.QVEvent.answerClick 2]).1,
   rfl,
   (C2_submitAnswer_at_most_once sampleCtx sampleShownState
      [QuestionViewer.QVEvent.timeUp, QuestionViewer.QVEvent.answerClick 2]).2 rfl⟩

/-- C3: when the timer expires with no user action (no result shown yet), the
engine submits exactly one placeholder answer — the first answer whose
`is_correct` flag is false, reported with correctness `false` — and then
schedules the next-question fetch after the fixed 2500 ms post-result
delay. -/
theorem C3_timeout_submits_one_incorrect (ctx : QuestionViewer.QVCtx)
    (s : QuestionViewer.QVState) (q : Question) (w : Answer)
    (hsum : ctx.showRoundSummary = false)
    (hq : s.question = some q)
    (hflag : s.isNextQuestionScheduled = false)
    (hres : s.showResult = false)
    (hfind : q.answers.find? (fun a => !a.is_correct) = some w)
    (hg : numTruthy ctx.gameId = true) (hu : numTruthy ctx.userId = true)
    (hr : numTruthy s.roundQuestionId = true) :
    (QuestionViewer.handleTimeUp ctx s).2
      = [QuestionViewer.QVEffect.sendAnswer q.id w.id false,
         QuestionViewer.QVEffect.scheduleNextQuestion 2500]
    ∧ w.is_correct = false
    ∧ (QuestionViewer.handleTimeUp ctx s).1.showResult = true
    ∧ (QuestionViewer.handleTimeUp ctx s).1.timeExpired = true
    ∧ (QuestionViewer.handleTimeUp ctx s).1.isNextQuestionScheduled = true := by
  have hw : w.is_correct = false := by
    have := List.find?_some hfind
    simpa using this
  refine ⟨?_, hw, ?_, ?_, ?_⟩ <;>
    simp [QuestionViewer.handleTimeUp, hsum, hq, hflag, hres, hfind, hg, hu, hr]

/-- C3 witness: the theorem applied to the sample question, whose first
incorrect answer has id 1. -/
theorem C3_witness :
    (QuestionViewer.handleTimeUp sampleCtx sampleFreshState).2
      = [QuestionViewer.QVEffect.sendAnswer 5 1 false,
         QuestionViewer.QVEffect.scheduleNextQuestion 2500]
    ∧ ({ id := 1, text := "a", is_correct := false } : Answer).is_correct = false :=
  ⟨(C3_timeout_submits_one_incorrect sampleCtx sampleFreshState sampleQuestion
      { id := 1, text := "a", is_correct := false }
      rfl rfl rfl rfl (by decide) rfl rfl rfl).1,
   rfl⟩

/-! ### Question-delivery retry budgets (C5)

HTTP 202 satisfies `response.ok`, so the explicit `status === 202` handler
(with its 30-attempt budget) sits in dead code behind `if (!response.ok)`:
a real 202 answer (a JSON body without a `question` field) flows into the
malformed-payload path, which retries only 5 times before a terminal error.
The transient-`400` loop retries 30 times.  The `400` budget is therefore
*larger* than the effective `202` budget, not "much smaller". -/

/-- C5 (counterexample): at attempt 29 the transient-`400` loop is still
retrying while the `202` path stopped retrying after attempt 4; no pair of
budgets characterising the two retry loops can make the `400` budget smaller —
they are forced to 30 and 5 respectively. -/
theorem C5_counterexample :
    (QuestionViewer.fetchRandomQuestion sampleCtx sampleFreshState 29 false
        respNoActiveRound 0).2
      = [QuestionViewer.QVEffect.scheduleRefetch 1000 30 false]
    ∧ (QuestionViewer.fetchRandomQuestion sampleCtx sampleFreshState 5 false
        resp202 0).2 = []
    ∧ ¬ ∃ b202 bTrans : Nat,
        (∀ n : Nat,
          (QuestionViewer.fetchRandomQuestion sampleCtx sampleFreshState n false resp202 0).2
            = [QuestionViewer.QVEffect.scheduleRefetch 1000 (n + 1) false] ↔ n < b202)
        ∧ (∀ n : Nat,
          (QuestionViewer.fetchRandomQuestion sampleCtx sampleFreshState n false
              respNoActiveRound 0).2
            = [QuestionViewer.QVEffect.scheduleRefetch 1000 (n + 1) false] ↔ n < bTrans)
        ∧ bTrans < b202 := by
  refine ⟨by decide, by decide, ?_⟩
  rintro ⟨b1, b2, h1, h2, hlt⟩
  have e1 : 4 < b1 := (h1 4).mp (by decide)
  have e2 : 29 < b2 := (h2 29).mp (by decide)
  have f1 : ¬ (5 < b1) := fun hh => absurd ((h1 5).mpr (by omega)) (by decide)
  omega

/-- C5 (amended): a `202` response is `ok`, so it bypasses the written (dead)
202 handler and follows the malformed-payload path: retries on a fixed
1-second interval with a budget of 5 attempts, then a terminal user-visible
error.  The transient-`400` ("No active round" / "not in progress") path
retries on the same fixed 1-second interval with a budget of 30 attempts —
six times larger, not much smaller — and falls through to the terminal
round-complete transition only after that budget is exhausted. -/
theorem C5_retry_budgets (ctx : QuestionViewer.QVCtx) (s : QuestionViewer.QVState)
    (n : Nat) (silent : Bool) (d202 dT : String) (now : Nat)
    (hguard : s.isNextQuestionScheduled = false)
    (hdet : strIncludes (jsOrStr dT "Round completed") "No active round" = true
            ∨ strIncludes (jsOrStr dT "Round completed") "not in progress" = true) :
    ((QuestionViewer.fetchRandomQuestion ctx s n silent
        { status := 202, detail := d202, payload := none } now).2
      = [QuestionViewer.QVEffect.scheduleRefetch 1000 (n + 1) false] ↔ n < 5)
    ∧ (¬ n < 5 →
        (QuestionViewer.fetchRandomQuestion ctx s n silent
            { status := 202, detail := d202, payload := none } now).1.error
          = some "Invalid response from server: question is missing")
    ∧ ((QuestionViewer.fetchRandomQuestion ctx s n silent
        { status := 400, detail := dT, payload := none } now).2
      = [QuestionViewer.QVEffect.scheduleRefetch 1000 (n + 1) false] ↔ n < 30)
    ∧ (¬ n < 30 →
        (QuestionViewer.fetchRandomQuestion ctx s n silent
            { status := 400, detail := dT, payload := none } now).2
          = [QuestionViewer.QVEffect.roundComplete]) := by
  have hdet2 : (strIncludes (jsOrStr dT "Round completed") "No active round"
      || strIncludes (jsOrStr dT "Round completed") "not in progress") = true := by
    rcases hdet with h | h <;> simp [h]
  refine ⟨?_, ?_, ?_, ?_⟩
  · by_cases hn : n < 5 <;>
      simp [QuestionViewer.fetchRandomQuestion, QuestionViewer.respOk, hguard, hn]
  · intro hn
    simp [QuestionViewer.fetchRandomQuestion, QuestionViewer.respOk, hguard, hn]
  · by_cases hn : n < 30 <;>
      simp [QuestionViewer.fetchRandomQuestion, QuestionViewer.respOk, hguard, hdet2, hn]
  · intro hn
    simp [QuestionViewer.fetchRandomQuestion, QuestionViewer.respOk, hguard, hdet2, hn]

/-- C5 witness for the amended theorem: concrete details at attempts 5
and 30. -/
theorem C5_witness :
    sampleFreshState.isNextQuestionScheduled = false
    ∧ ((QuestionViewer.fetchRandomQuestion sampleCtx sampleFreshState 2 false
          resp202 0).2
        = [QuestionViewer.QVEffect.scheduleRefetch 1000 3 false] ↔ 2 < 5)
    ∧ ((QuestionViewer.fetchRandomQuestion sampleCtx sampleFreshState 30 false
          respNoActiveRound 0).2
        = [QuestionViewer.QVEffect.roundComplete]) := by
  refine ⟨rfl, ?_, ?_⟩
  · exact (C5_retry_budgets sampleCtx sampleFreshState 2 false
      "Game is waiting to start" "No active round found" 0 rfl (Or.inl (by decide))).1
  · exact ((C5_retry_budgets sampleCtx sampleFreshState 30 false
      "Game is waiting to start" "No active round found" 0 rfl
      (Or.inl (by decide))).2.2.2 (by omega))

/-! ### Same-question no-op refresh (C6) -/

/-- C6: when a silent poll succeeds with the question already displayed (same
question id and same `roundQuestionId`), the engine treats it as a no-op
refresh: question, selected answer, result visibility, timeout flag, timer
key (no Timer reset), `roundQuestionId` and the load timestamp are all left
unchanged, no new question lifecycle starts (no mark-displayed, no
question-loaded or question-change notification), and the only emitted effect
is a re-poll scheduled 1 second later. -/
theorem C6_same_question_noop_refresh (ctx : QuestionViewer.QVCtx)
    (s : QuestionViewer.QVState) (q0 q : Question) (rq : Option Nat) (now : Nat)
    (hq : s.question = some q0)
    (hid : q.id = q0.id)
    (hflag : s.isNextQuestionScheduled = false)
    (hrq : QuestionViewer.normRoundQuestionId rq = s.roundQuestionId) :
    (QuestionViewer.fetchRandomQuestion ctx s 0 true
        { status := 200, detail := "", payload := some (q, rq) } now).1
      = { s with error := none, loading := false, isNextQuestionScheduled := false }
    ∧ (QuestionViewer.fetchRandomQuestion ctx s 0 true
        { status := 200, detail := "", payload := some (q, rq) } now).2
      = [QuestionViewer.QVEffect.scheduleRefetch 1000 1 true] := by
  constructor <;>
    simp [QuestionViewer.fetchRandomQuestion, QuestionViewer.respOk, hq, hid, hflag, hrq]

/-- C6 witness: a silent poll repeating the sample question on the resolved
sample state changes nothing but schedules a re-poll. -/
theorem C6_witness :
    sampleShownState.question = some sampleQuestion
    ∧ (QuestionViewer.fetchRandomQuestion sampleCtx sampleShownState 0 true
        respSameQuestion 0).1
      = { sampleShownState with error := none, loading := false,
                                isNextQuestionScheduled := false }
    ∧ (QuestionViewer.fetchRandomQuestion sampleCtx sampleShownState 0 true
        respSameQuestion 0).2
      = [QuestionViewer.QVEffect.scheduleRefetch 1000 1 true] := by
  have h := C6_same_question_noop_refresh sampleCtx sampleShownState sampleQuestion
    sampleQuestion (some 7) 0 rfl rfl rfl rfl
  exact ⟨rfl, h.1, h.2⟩

/-! ### Leaderboard projection ordering (C7, C10) -/

/-- The insertion step `orderedInsert` preserves pairwise order for a comparator relation that is
total and transitive on the elements involved (the JS comparators need this
restricted form: the round-summary comparator is only consistent on
participants whose elimination flag is a definite boolean). -/
theorem pairwise_orderedInsert_on {α : Type} (r : α → α → Prop) [DecidableRel r]
    (P : α → Prop)
    (htot : ∀ a b, P a → P b → r a b ∨ r b a)
    (htrans : ∀ a b c, P a → P b → P c → r a b → r b c → r a c)
    (a : α) (ha : P a) :
    ∀ l : List α, (∀ x ∈ l, P x) → l.Pairwise r → (List.orderedInsert r a l).Pairwise r := by
  intro l
  induction l with
  | nil =>
    intro _ _
    simp [List.orderedInsert]
  | cons b t ih =>
    intro hl hp
    rw [List.orderedInsert]
    by_cases hab : r a b
    · rw [if_pos hab]
      refine List.pairwise_cons.mpr ⟨?_, hp⟩
      intro c hc
      rcases List.mem_cons.mp hc with rfl | hct
      · exact hab
      · exact htrans a b c ha (hl b (List.mem_cons_self b t))
          (hl c (List.mem_cons_of_mem b hct)) hab ((List.pairwise_cons.mp hp).1 c hct)
    · rw [if_neg hab]
      refine List.pairwise_cons.mpr ⟨?_, ?_⟩
      · intro c hc
        rcases (List.mem_orderedInsert r).mp hc with rfl | hct
        · exact (htot c b ha (hl b (List.mem_cons_self b t))).resolve_left hab
        · exact (List.pairwise_cons.mp hp).1 c hct
      · exact ih (fun x hx => hl x (List.mem_cons_of_mem b hx)) (List.pairwise_cons.mp hp).2

/-- The `insertionSort` output is pairwise ordered for a comparator relation that
is total and transitive on the list's elements. -/
theorem pairwise_insertionSort_on {α : Type} (r : α → α → Prop) [DecidableRel r]
    (P : α → Prop)
    (htot : ∀ a b, P a → P b → r a b ∨ r b a)
    (htrans : ∀ a b c, P a → P b → P c → r a b → r b c → r a c) :
    ∀ l : List α, (∀ x ∈ l, P x) → (List.insertionSort r l).Pairwise r := by
  intro l
  induction l with
  | nil =>
    intro _
    simp [List.insertionSort]
  | cons a t ih =>
    intro hl
    rw [List.insertionSort]
    exact pairwise_orderedInsert_on r P htot htrans a (hl a (List.mem_cons_self a t))
      (List.insertionSort r t)
      (fun x hx => hl x (List.mem_cons_of_mem a
        ((List.perm_insertionSort r t).mem_iff.mp hx)))
      (ih (fun x hx => hl x (List.mem_cons_of_mem a hx)))

/-- The sidebar comparator is total (it normalises the elimination flags). -/
theorem Leaderboard.cmpLE_total (a b : Participant) :
    Leaderboard.cmpLE a b ∨ Leaderboard.cmpLE b a := by
  cases ha : Leaderboard.elimFlag a <;> cases hb : Leaderboard.elimFlag b <;>
    simp [Leaderboard.cmpLE, Leaderboard.cmp, ha, hb] <;> omega

/-- The sidebar comparator is transitive. -/
theorem Leaderboard.cmpLE_trans (a b c : Participant) :
    Leaderboard.cmpLE a b → Leaderboard.cmpLE b c → Leaderboard.cmpLE a c := by
  cases ha : Leaderboard.elimFlag a <;> cases hb : Leaderboard.elimFlag b <;>
      cases hc : Leaderboard.elimFlag c <;>
    simp [Leaderboard.cmpLE, Leaderboard.cmp, ha, hb, hc] <;> omega

/-- What one sidebar-comparator step means: active never after eliminated, and
descending score within a group. -/
theorem Leaderboard.cmpLE_imp (a b : Participant) (h : Leaderboard.cmpLE a b) :
    (Leaderboard.elimFlag a = true → Leaderboard.elimFlag b = true)
    ∧ (Leaderboard.elimFlag a = Leaderboard.elimFlag b →
        b.correct_answers ≤ a.correct_answers) := by
  cases ha : Leaderboard.elimFlag a <;> cases hb : Leaderboard.elimFlag b <;>
    simp [Leaderboard.cmpLE, Leaderboard.cmp, ha, hb] at h ⊢ <;> omega

/-- The round-summary comparator is total on participants with definite
elimination flags. -/
theorem RoundSummary.cmpLE_total_on (a b : Participant)
    (ha : a.is_eliminated ≠ none) (hb : b.is_eliminated ≠ none) :
    RoundSummary.cmpLE a b ∨ RoundSummary.cmpLE b a := by
  rcases hA : a.is_eliminated with _ | x
  · exact absurd hA ha
  rcases hB : b.is_eliminated with _ | y
  · exact absurd hB hb
  cases x <;> cases y <;>
    simp [RoundSummary.cmpLE, RoundSummary.cmp, hA, hB, boolTruthy] <;> omega

/-- The round-summary comparator is transitive on participants with definite
elimination flags. -/
theorem RoundSummary.cmpLE_trans_on (a b c : Participant)
    (ha : a.is_eliminated ≠ none) (hb : b.is_eliminated ≠ none)
    (hc : c.is_eliminated ≠ none) :
    RoundSummary.cmpLE a b → RoundSummary.cmpLE b c → RoundSummary.cmpLE a c := by
  rcases hA : a.is_eliminated with _ | x
  · exact absurd hA ha
  rcases hB : b.is_eliminated with _ | y
  · exact absurd hB hb
  rcases hC : c.is_eliminated with _ | z
  · exact absurd hC hc
  cases x <;> cases y <;> cases z <;>
    simp [RoundSummary.cmpLE, RoundSummary.cmp, hA, hB, hC, boolTruthy] <;> omega

/-- Members of the round-summary sorted list come from the input list. -/
theorem RoundSummary.mem_sorted (ps : List Participant) (p : Participant)
    (hp : p ∈ RoundSummary.sortedParticipants ps) : p ∈ ps :=
  (List.mem_filter.mp
    ((List.perm_insertionSort RoundSummary.cmpLE
        (RoundSummary.validParticipants ps)).mem_iff.mp hp)).1

/-- On inputs with definite elimination flags the round-summary sorted list is
pairwise ordered by its comparator. -/
theorem RoundSummary.sorted_pairwise (ps : List Participant)
    (hflags : ∀ p ∈ ps, p.is_eliminated ≠ none) :
    (RoundSummary.sortedParticipants ps).Pairwise RoundSummary.cmpLE :=
  pairwise_insertionSort_on RoundSummary.cmpLE (fun p => p.is_eliminated ≠ none)
    (fun a b ha hb => RoundSummary.cmpLE_total_on a b ha hb)
    (fun a b c ha hb hc => RoundSummary.cmpLE_trans_on a b c ha hb hc)
    (RoundSummary.validParticipants ps)
    (fun x hx => hflags x (List.mem_filter.mp hx).1)

/-- A definite, non-truthy elimination flag is `some false`. -/
theorem elim_flag_definite_false (p : Participant)
    (hdef : p.is_eliminated ≠ none) (hfalse : boolTruthy p.is_eliminated = false) :
    p.is_eliminated = some false := by
  rcases h : p.is_eliminated with _ | x
  · exact absurd h hdef
  · cases x
    · rfl
    · rw [h] at hfalse
      simp [boolTruthy] at hfalse

/-- A truthy elimination flag is `some true`. -/
theorem elim_flag_truthy (p : Participant) (h : boolTruthy p.is_eliminated = true) :
    p.is_eliminated = some true := by
  rcases hx : p.is_eliminated with _ | x
  · rw [hx] at h
    simp [boolTruthy] at h
  · cases x
    · rw [hx] at h
      simp [boolTruthy] at h
    · rfl

/-- C7: the sidebar leaderboard projection puts every active participant
before every eliminated one with each group internally sorted by descending
score, and is a pure permutation of the (filtered) input — no scoring logic of
its own; the round-summary projection renders the active cards before the
eliminated cards, each group internally sorted by descending score (for
server payloads whose elimination flags are definite booleans), again as a
permutation of its filtered input. -/
theorem C7_leaderboard_projection (ps : List Participant) :
    (Leaderboard.sortedParticipants ps).Pairwise (fun a b =>
        (Leaderboard.elimFlag a = true → Leaderboard.elimFlag b = true)
        ∧ (Leaderboard.elimFlag a = Leaderboard.elimFlag b →
            b.correct_answers ≤ a.correct_answers))
    ∧ (Leaderboard.sortedParticipants ps).Perm (Leaderboard.validParticipants ps)
    ∧ ((∀ p ∈ ps, p.is_eliminated ≠ none) →
        (RoundSummary.activeParticipants ps).Pairwise
          (fun a b => b.correct_answers ≤ a.correct_answers)
        ∧ (RoundSummary.eliminatedParticipants ps).Pairwise
          (fun a b => b.correct_answers ≤ a.correct_answers)
        ∧ (∀ p ∈ RoundSummary.activeParticipants ps, boolTruthy p.is_eliminated = false)
        ∧ (∀ p ∈ RoundSummary.eliminatedParticipants ps, boolTruthy p.is_eliminated = true)
        ∧ (RoundSummary.renderedRanking ps).Perm (RoundSummary.validParticipants ps)) := by
  refine ⟨?_, List.perm_insertionSort _ _, ?_⟩
  · have hs : (Leaderboard.sortedParticipants ps).Pairwise Leaderboard.cmpLE :=
      pairwise_insertionSort_on Leaderboard.cmpLE (fun _ => True)
        (fun a b _ _ => Leaderboard.cmpLE_total a b)
        (fun a b c _ _ _ => Leaderboard.cmpLE_trans a b c)
        (Leaderboard.validParticipants ps) (fun _ _ => trivial)
    exact hs.imp (fun h => Leaderboard.cmpLE_imp _ _ h)
  · intro hflags
    have hs := RoundSummary.sorted_pairwise ps hflags
    have hactMem : ∀ p ∈ RoundSummary.activeParticipants ps,
        boolTruthy p.is_eliminated = false := by
      intro p hp
      have := (List.mem_filter.mp hp).2
      simpa using this
    have helimMem : ∀ p ∈ RoundSummary.eliminatedParticipants ps,
        boolTruthy p.is_eliminated = true := by
      intro p hp
      exact (List.mem_filter.mp hp).2
    refine ⟨?_, ?_, hactMem, helimMem, ?_⟩
    · have hsub : List.Sublist (RoundSummary.activeParticipants ps)
          (RoundSummary.sortedParticipants ps) :=
        List.filter_sublist _
      have hpair : (RoundSummary.activeParticipants ps).Pairwise RoundSummary.cmpLE :=
        hs.sublist hsub
      refine hpair.imp_of_mem ?_
      intro a b hma hmb hab
      have haf := elim_flag_definite_false a
        (hflags a (RoundSummary.mem_sorted ps a ((List.mem_filter.mp hma).1)))
        (hactMem a hma)
      have hbf := elim_flag_definite_false b
        (hflags b (RoundSummary.mem_sorted ps b ((List.mem_filter.mp hmb).1)))
        (hactMem b hmb)
      simp [RoundSummary.cmpLE, RoundSummary.cmp, haf, hbf] at hab
      omega
    · have hsub : List.Sublist (RoundSummary.eliminatedParticipants ps)
          (RoundSummary.sortedParticipants ps) :=
        List.filter_sublist _
      have hpair : (RoundSummary.eliminatedParticipants ps).Pairwise RoundSummary.cmpLE :=
        hs.sublist hsub
      refine hpair.imp_of_mem ?_
      intro a b hma hmb hab
      have hat := elim_flag_truthy a (helimMem a hma)
      have hbt := elim_flag_truthy b (helimMem b hmb)
      simp [RoundSummary.cmpLE, RoundSummary.cmp, hat, hbt] at hab
      omega
    · have hcongr : (RoundSummary.sortedParticipants ps).filter
          (fun p => !!(boolTruthy p.is_eliminated))
          = RoundSummary.eliminatedParticipants ps := by
        rw [RoundSummary.eliminatedParticipants]
        exact List.filter_congr (fun x _ => by rw [Bool.not_not])
      have hperm : (RoundSummary.renderedRanking ps).Perm
          (RoundSummary.sortedParticipants ps) := by
        rw [RoundSummary.renderedRanking, RoundSummary.activeParticipants, ← hcongr]
        exact List.filter_append_perm _ _
      exact hperm.trans (List.perm_insertionSort _ _)

/-- C7 witness: the theorem applied to a concrete mixed list with definite
elimination flags. -/
theorem C7_witness :
    (∀ p ∈ ([pCarol, pAlice, pBob, pDave] : List Participant), p.is_eliminated ≠ none)
    ∧ (RoundSummary.activeParticipants [pCarol, pAlice, pBob, pDave]).Pairwise
        (fun a b => b.correct_answers ≤ a.correct_answers)
    ∧ (RoundSummary.eliminatedParticipants [pCarol, pAlice, pBob, pDave]).Pairwise
        (fun a b => b.correct_answers ≤ a.correct_answers)
    ∧ (Leaderboard.sortedParticipants [pCarol, pAlice, pBob, pDave]).Perm
        (Leaderboard.validParticipants [pCarol, pAlice, pBob, pDave]) := by
  have h := C7_leaderboard_projection [pCarol, pAlice, pBob, pDave]
  have h3 := h.2.2 (by decide)
  exact ⟨by decide, h3.1, h3.2.1, h.2.1⟩

/-- C10: both projections silently drop, before partitioning and sorting,
every participant whose id is missing or zero, and the sidebar ranking also
drops every participant with an empty name; such participants never appear in
the rendered output even though they are present in the input list. -/
theorem C10_invalid_participants_dropped (ps : List Participant) (p : Participant)
    (hmem : p ∈ ps) :
    (numTruthy p.id = false →
        p ∉ Leaderboard.sortedParticipants ps ∧ p ∉ RoundSummary.renderedRanking ps)
    ∧ (strTruthy p.name = false → p ∉ Leaderboard.sortedParticipants ps) := by
  have hmemL : p ∈ Leaderboard.sortedParticipants ps ↔ p ∈ Leaderboard.validParticipants ps :=
    (List.perm_insertionSort _ _).mem_iff
  constructor
  · intro hid
    constructor
    · intro hin
      have hv := (List.mem_filter.mp (hmemL.mp hin)).2
      simp [hid] at hv
    · intro hin
      have hsorted : p ∈ RoundSummary.sortedParticipants ps := by
        rcases List.mem_append.mp hin with h | h
        · exact (List.mem_filter.mp h).1
        · exact (List.mem_filter.mp h).1
      have hv := (List.mem_filter.mp
        ((List.perm_insertionSort RoundSummary.cmpLE
            (RoundSummary.validParticipants ps)).mem_iff.mp hsorted)).2
      simp [hid] at hv
  · intro hname hin
    have hv := (List.mem_filter.mp (hmemL.mp hin)).2
    simp [hname] at hv

/-- C10 witness: a participant with a missing id and one with an empty name,
both present in the input, are absent from the rendered rankings. -/
theorem C10_witness :
    pGhost ∈ ([pAlice, pGhost, pZero, pNoName] : List Participant)
    ∧ pGhost ∉ Leaderboard.sortedParticipants [pAlice, pGhost, pZero, pNoName]
    ∧ pGhost ∉ RoundSummary.renderedRanking [pAlice, pGhost, pZero, pNoName]
    ∧ pZero ∉ Leaderboard.sortedParticipants [pAlice, pGhost, pZero, pNoName]
    ∧ pNoName ∉ Leaderboard.sortedParticipants [pAlice, pGhost, pZero, pNoName] := by
  have h1 := C10_invalid_participants_dropped [pAlice, pGhost, pZero, pNoName] pGhost (by decide)
  have h2 := C10_invalid_participants_dropped [pAlice, pGhost, pZero, pNoName] pZero (by decide)
  have h3 := C10_invalid_participants_dropped [pAlice, pGhost, pZero, pNoName] pNoName (by decide)
  exact ⟨by decide, (h1.1 rfl).1, (h1.1 rfl).2, (h2.1 rfl).1, h3.2 rfl⟩
